import Mathlib

/-!
Verification of the throttled sequential data loader in
`s3-vector-connector/example/data_loader.py`.

The development shallowly embeds the two pieces of program logic that the
specification's claims are about:

1. `KeyspacesRetryPolicy` (data_loader.py lines 47-85): a structure holding
   `RETRY_MAX_ATTEMPTS` together with the four retry handlers
   `on_read_timeout`, `on_write_timeout`, `on_unavailable` and
   `on_request_error`, each translated verbatim from the Python methods.

2. The sequential insert loop (data_loader.py lines 254-294): for each row,
   try the write; on success increment `successful` and print a progress line
   when the 1-based row index is a multiple of 10; on any exception increment
   `failed`; in both cases sleep one second unless the row is the last one.

Timing is modelled with a virtual clock measured in seconds: a write attempt
is instantaneous and `time.sleep(1)` advances the clock by exactly one.  The
loop produces a trace of events (write attempts with their start times,
progress reports, sleeps) so that temporal and ordering claims can be stated.
-/

/-- Result of a single write attempt, as classified by the sink.  The four
transient kinds correspond to the four retry-policy hooks of the Cassandra
driver; `permanent` is an error the driver raises without consulting the
retry policy; `ok` is a successful write. -/
inductive AttemptResult where
  | ok
  | readTimeout
  | writeTimeout
  | unavailable
  | requestError
  | permanent
deriving DecidableEq

/-- A transient failure is one of the four causes routed to the retry
policy: read timeout, write timeout, unavailable, or generic request
error. -/
def AttemptResult.isTransient : AttemptResult → Bool
  | AttemptResult.readTimeout => true
  | AttemptResult.writeTimeout => true
  | AttemptResult.unavailable => true
  | AttemptResult.requestError => true
  | _ => false

/-- Retry decision constants of the driver retry-policy interface, as used by
`KeyspacesRetryPolicy` (the Python methods return `self.RETRY` or
`self.RETHROW`). -/
inductive RetryDecision where
  | RETRY
  | RETHROW
deriving DecidableEq

/-- `KeyspacesRetryPolicy.__init__` (data_loader.py lines 55-57): the policy
stores the maximum retry attempts; the Python default is 20. -/
structure KeyspacesRetryPolicy where
  RETRY_MAX_ATTEMPTS : Nat
deriving DecidableEq

/-- The policy instance built at data_loader.py line 124:
`KeyspacesRetryPolicy(RETRY_MAX_ATTEMPTS=20)` (also the constructor
default). -/
def defaultKeyspacesRetryPolicy : KeyspacesRetryPolicy :=
  ⟨20⟩

/-- Consistency levels are small integers in the driver; `LOCAL_QUORUM` is
the level configured at data_loader.py line 123. -/
def LOCAL_QUORUM : Nat := 6

/-- `KeyspacesRetryPolicy.on_read_timeout` (data_loader.py lines 59-64),
translated verbatim: retry with the same consistency while
`retry_num <= RETRY_MAX_ATTEMPTS`, otherwise rethrow.  The `query`,
`required_responses`, `received_responses` and `data_retrieved` arguments are
unused, exactly as in the source. -/
def KeyspacesRetryPolicy.on_read_timeout (p : KeyspacesRetryPolicy)
    (query : Unit) (consistency required_responses received_responses : Nat)
    (data_retrieved : Bool) (retry_num : Nat) : RetryDecision × Option Nat :=
  if retry_num ≤ p.RETRY_MAX_ATTEMPTS then
    (RetryDecision.RETRY, some consistency)
  else
    (RetryDecision.RETHROW, none)

/-- `KeyspacesRetryPolicy.on_write_timeout` (data_loader.py lines 66-71),
translated verbatim; `query`, `write_type`, `required_responses` and
`received_responses` are unused, exactly as in the source. -/
def KeyspacesRetryPolicy.on_write_timeout (p : KeyspacesRetryPolicy)
    (query : Unit) (consistency write_type required_responses received_responses : Nat)
    (retry_num : Nat) : RetryDecision × Option Nat :=
  if retry_num ≤ p.RETRY_MAX_ATTEMPTS then
    (RetryDecision.RETRY, some consistency)
  else
    (RetryDecision.RETHROW, none)

/-- `KeyspacesRetryPolicy.on_unavailable` (data_loader.py lines 73-78),
translated verbatim; `query`, `required_replicas` and `alive_replicas` are
unused, exactly as in the source. -/
def KeyspacesRetryPolicy.on_unavailable (p : KeyspacesRetryPolicy)
    (query : Unit) (consistency required_replicas alive_replicas : Nat)
    (retry_num : Nat) : RetryDecision × Option Nat :=
  if retry_num ≤ p.RETRY_MAX_ATTEMPTS then
    (RetryDecision.RETRY, some consistency)
  else
    (RetryDecision.RETHROW, none)

/-- `KeyspacesRetryPolicy.on_request_error` (data_loader.py lines 80-85),
translated verbatim; `query` and `error` are unused, exactly as in the
source. -/
def KeyspacesRetryPolicy.on_request_error (p : KeyspacesRetryPolicy)
    (query : Unit) (consistency : Nat) (error : Unit) (retry_num : Nat) :
    RetryDecision × Option Nat :=
  if retry_num ≤ p.RETRY_MAX_ATTEMPTS then
    (RetryDecision.RETRY, some consistency)
  else
    (RetryDecision.RETHROW, none)

/-- Dispatch of a transient failure cause to the corresponding policy hook,
as the driver performs it.  The unused positional arguments of the hooks are
filled with placeholder values, which the hooks ignore.  For the
non-transient results (which never reach the retry policy) the dispatch is
arbitrary; it is never consulted on them. -/
def consult (p : KeyspacesRetryPolicy) (c : Nat) :
    AttemptResult → Nat → RetryDecision × Option Nat
  | AttemptResult.readTimeout, k => p.on_read_timeout () c 0 0 false k
  | AttemptResult.writeTimeout, k => p.on_write_timeout () c 0 0 0 k
  | AttemptResult.unavailable, k => p.on_unavailable () c 0 0 k
  | AttemptResult.requestError, k => p.on_request_error () c () k
  | _, _ => (RetryDecision.RETHROW, none)

/-- The behaviour of the sink on one record: the result of the k-th write
attempt (0-based) for that record. -/
def Behavior := Nat → AttemptResult

/-- Modelled from the spec: the retry-driving loop around a single
`session.execute` call is not part of this repository (it lives in the
Cassandra driver); the spec describes it as retrying the same record on each
transient failure until the policy's budget is exhausted.  Per the driver's
retry-policy contract, the policy hook is consulted with `retry_num` equal
to the number of retries already performed, so `retry_num` is 0 the first
time a hook is called for a record.  `execRecordAux p beh c fuel k` performs
the attempt numbered `k`: a successful attempt ends the call, a permanent
error raises immediately, a transient failure consults the policy with
`retry_num = k` and either retries (with the consistency the policy
returned) or rethrows.  It returns whether the call succeeded and how many
write attempts were made.  `fuel` only guarantees termination; the policy
rethrows strictly before any sufficiently large fuel runs out. -/
def execRecordAux (p : KeyspacesRetryPolicy) (beh : Behavior) :
    Nat → Nat → Nat → Bool × Nat
  | _, 0, _ => (false, 0)
  | c, fuel + 1, k =>
    if beh k = AttemptResult.ok then (true, 1)
    else if beh k = AttemptResult.permanent then (false, 1)
    else
      match consult p c (beh k) k with
      | (RetryDecision.RETRY, oc) =>
        let s := execRecordAux p beh (oc.getD c) fuel (k + 1)
        (s.1, s.2 + 1)
      | (RetryDecision.RETHROW, _) => (false, 1)

/-- One `session.execute` call (data_loader.py line 262) for one record,
under retry policy `p`, starting at `LOCAL_QUORUM` consistency: returns
whether the call returned normally and the total number of write attempts
made.  Fuel `RETRY_MAX_ATTEMPTS + 2` is enough: the policy rethrows at
`retry_num = RETRY_MAX_ATTEMPTS + 1` at the latest. -/
def execRecord (p : KeyspacesRetryPolicy) (beh : Behavior) : Bool × Nat :=
  execRecordAux p beh LOCAL_QUORUM (p.RETRY_MAX_ATTEMPTS + 2) 0

/-- The observed rate in the progress report (data_loader.py line 277):
`rate = i / elapsed_time if elapsed_time > 0 else 0`. -/
def progressRate (i : Nat) (elapsed : ℚ) : ℚ :=
  if 0 < elapsed then (i : ℚ) / elapsed else 0

/-- The estimated seconds remaining in the progress report (data_loader.py
line 278): `eta_seconds = (len(rows) - i) / rate if rate > 0 else 0`. -/
def etaSeconds (total i : Nat) (rate : ℚ) : ℚ :=
  if 0 < rate then ((total : ℚ) - (i : ℚ)) / rate else 0

/-- The estimated minutes remaining (data_loader.py line 279):
`eta_minutes = eta_seconds / 60`. -/
def etaMinutes (total i : Nat) (rate : ℚ) : ℚ :=
  etaSeconds total i rate / 60

/-- The percent-complete figure printed in the progress report
(data_loader.py line 281): `i / len(rows) * 100`. -/
def percentOf (i total : Nat) : ℚ :=
  (i : ℚ) / (total : ℚ) * 100

/-- Observable events of a run, for stating temporal and ordering claims:
a write attempt on the record with the given 1-based source index, starting
at the given virtual time and classified by the sink; a progress report with
the payload printed at data_loader.py lines 281-282; a one-second pacing
sleep (data_loader.py lines 286 and 294). -/
inductive Ev where
  | attempt (record : Nat) (time : Nat) (result : AttemptResult)
  | progress (records total : Nat) (percent rate etaMin : ℚ)
  | sleepEv
deriving DecidableEq

/-- The sequential insert loop of data_loader.py lines 254-294.
`insertLoop p n i t suc fl l` processes the remaining behaviours `l`, where
`n = len(rows)`, `i` is the 1-based index of the next record (from
`enumerate(rows, 1)`), `t` is the virtual clock, and `suc`, `fl` are the
`successful` and `failed` counters.  On a normal return of the write
(`try` body): `successful += 1`, a progress report when `i % 10 == 0`, and
`time.sleep(1)` when `i < len(rows)`.  On an exception (`except` handler):
`failed += 1` and the same conditional sleep.  Returns the final counters
and the event trace. -/
def insertLoop (p : KeyspacesRetryPolicy) (n : Nat) :
    Nat → Nat → Nat → Nat → List Behavior → Nat × Nat × List Ev
  | _, _, suc, fl, [] => (suc, fl, [])
  | i, t, suc, fl, b :: rest =>
    let r := execRecord p b
    let evA : List Ev := (List.range r.2).map fun k => Ev.attempt i t (b k)
    let sleepEvs : List Ev := if i < n then [Ev.sleepEv] else []
    let tNext : Nat := if i < n then t + 1 else t
    if r.1 then
      let evP : List Ev :=
        if i % 10 == 0 then
          [Ev.progress i n (percentOf i n) (progressRate i (t : ℚ))
            (etaMinutes n i (progressRate i (t : ℚ)))]
        else []
      let s := insertLoop p n (i + 1) tNext (suc + 1) fl rest
      (s.1, s.2.1, evA ++ evP ++ sleepEvs ++ s.2.2)
    else
      let s := insertLoop p n (i + 1) tNext suc (fl + 1) rest
      (s.1, s.2.1, evA ++ sleepEvs ++ s.2.2)

/-- A whole run of the loader over the rows read from the CSV: 1-based
indices, virtual clock starting at 0, both counters starting at 0
(data_loader.py lines 254-259), with `n = len(rows)`. -/
def runLoader (p : KeyspacesRetryPolicy) (l : List Behavior) :
    Nat × Nat × List Ev :=
  insertLoop p l.length 1 0 0 0 l

/-- Projection of a trace to its write attempts: the 1-based record index
and the virtual start time of each attempt, in trace order. -/
def attemptsOfTrace (tr : List Ev) : List (Nat × Nat) :=
  tr.filterMap fun e =>
    match e with
    | Ev.attempt r tm _ => some (r, tm)
    | _ => none

/-- Number of pacing sleeps in a trace. -/
def countSleeps (tr : List Ev) : Nat :=
  tr.countP fun e =>
    match e with
    | Ev.sleepEv => true
    | _ => false

/-- Number of progress reports in a trace. -/
def countProgress (tr : List Ev) : Nat :=
  tr.countP fun e =>
    match e with
    | Ev.progress _ _ _ _ _ => true
    | _ => false

/-- C6: the retry decision is independent of the transient failure cause:
for every policy, consistency level and retry number, the four handlers
`on_read_timeout`, `on_write_timeout`, `on_unavailable` and
`on_request_error` all return `(RETRY, consistency)` when
`retry_num ≤ RETRY_MAX_ATTEMPTS` and `(RETHROW, None)` otherwise, whatever
their cause-specific arguments are.  The decision carries no delay
component, so there is no backoff beyond the loop's fixed inter-attempt
spacing. -/
theorem retry_handlers_uniform (p : KeyspacesRetryPolicy) (q : Unit)
    (c rr rv wt rq aq : Nat) (dr : Bool) (e : Unit) (k : Nat) :
    p.on_read_timeout q c rr rv dr k =
      (if k ≤ p.RETRY_MAX_ATTEMPTS then (RetryDecision.RETRY, some c)
        else (RetryDecision.RETHROW, none)) ∧
    p.on_write_timeout q c wt rr rv k =
      (if k ≤ p.RETRY_MAX_ATTEMPTS then (RetryDecision.RETRY, some c)
        else (RetryDecision.RETHROW, none)) ∧
    p.on_unavailable q c rq aq k =
      (if k ≤ p.RETRY_MAX_ATTEMPTS then (RetryDecision.RETRY, some c)
        else (RetryDecision.RETHROW, none)) ∧
    p.on_request_error q c e k =
      (if k ≤ p.RETRY_MAX_ATTEMPTS then (RetryDecision.RETRY, some c)
        else (RetryDecision.RETHROW, none)) :=
  ⟨rfl, rfl, rfl, rfl⟩

/-- C10: the progress computation never divides by zero: the observed rate
is 0 whenever the elapsed time since run start is 0, and the estimated time
remaining is 0 whenever the observed rate is 0. -/
theorem progress_no_div_by_zero (i total : Nat) (elapsed rate : ℚ) :
    (elapsed = 0 → progressRate i elapsed = 0) ∧
    (rate = 0 → etaSeconds total i rate = 0) := by
  constructor
  · intro h
    simp [progressRate, h]
  · intro h
    simp [etaSeconds, h]

/-- Witness for C10 at `i = 3`, `total = 7`, zero elapsed time and zero
rate. -/
theorem progress_no_div_by_zero_witness :
    progressRate 3 0 = 0 ∧ etaSeconds 7 3 0 = 0 :=
  ⟨(progress_no_div_by_zero 3 7 0 0).1 rfl,
    (progress_no_div_by_zero 3 7 0 0).2 rfl⟩

/-- On any transient failure cause, the driver's dispatch to the policy
returns the one uniform decision: retry with the same consistency while
`retry_num ≤ RETRY_MAX_ATTEMPTS`, rethrow after. -/
lemma consult_transient (p : KeyspacesRetryPolicy) (c k : Nat)
    {r : AttemptResult} (hb : r.isTransient = true) :
    consult p c r k =
      if k ≤ p.RETRY_MAX_ATTEMPTS then (RetryDecision.RETRY, some c)
      else (RetryDecision.RETHROW, none) := by
  cases r <;> simp_all [AttemptResult.isTransient, consult,
    KeyspacesRetryPolicy.on_read_timeout, KeyspacesRetryPolicy.on_write_timeout,
    KeyspacesRetryPolicy.on_unavailable, KeyspacesRetryPolicy.on_request_error]

/-- Unfolding of one transient step of the per-record execution. -/
lemma execRecordAux_step (p : KeyspacesRetryPolicy) (b : Behavior)
    (m k c : Nat) (hb : (b k).isTransient = true) :
    execRecordAux p b c (m + 1) k =
      if k ≤ p.RETRY_MAX_ATTEMPTS then
        ((execRecordAux p b c m (k + 1)).1,
          (execRecordAux p b c m (k + 1)).2 + 1)
      else (false, 1) := by
  have hok : b k ≠ AttemptResult.ok := by
    intro h; rw [h] at hb; simp [AttemptResult.isTransient] at hb
  have hperm : b k ≠ AttemptResult.permanent := by
    intro h; rw [h] at hb; simp [AttemptResult.isTransient] at hb
  simp only [execRecordAux, if_neg hok, if_neg hperm, consult_transient p c k hb]
  by_cases hkM : k ≤ p.RETRY_MAX_ATTEMPTS <;> simp [hkM]

/-- A record whose every attempt fails transiently consumes all the fuel:
with matched fuel, the execution makes exactly `fuel` attempts and fails. -/
lemma execRecordAux_always_transient (p : KeyspacesRetryPolicy) (b : Behavior)
    (h : ∀ k, (b k).isTransient = true) :
    ∀ (fuel k c : Nat), k + fuel = p.RETRY_MAX_ATTEMPTS + 2 →
      execRecordAux p b c fuel k = (false, fuel) := by
  intro fuel
  induction fuel with
  | zero => intro k c _; rfl
  | succ m ih =>
    intro k c hk
    rw [execRecordAux_step p b m k c (h k)]
    by_cases hkM : k ≤ p.RETRY_MAX_ATTEMPTS
    · rw [if_pos hkM, ih (k + 1) c (by omega)]
    · have hm : m = 0 := by omega
      rw [if_neg hkM, hm]

/-- C1 counterexample: with the policy configured in the script
(`RETRY_MAX_ATTEMPTS = 20`, data_loader.py line 124) and a sink that
classifies every attempt as a write timeout, the loader makes 22 write
attempts for the record — the initial attempt plus one retry for each of
`retry_num = 0, …, 20` — not the 20 attempts the claim states. -/
theorem transient_record_not_twenty_attempts :
    (execRecord defaultKeyspacesRetryPolicy
        (fun _ => AttemptResult.writeTimeout)).2 = 22 ∧
    (execRecord defaultKeyspacesRetryPolicy
        (fun _ => AttemptResult.writeTimeout)).2 ≠ 20 := by
  constructor <;> decide

/-- C1 (amended): for every record whose sink classifies every attempt as a
transient failure, the write makes exactly `RETRY_MAX_ATTEMPTS + 2` attempts
(the initial attempt plus `RETRY_MAX_ATTEMPTS + 1` retries, since the policy
retries while `retry_num ≤ RETRY_MAX_ATTEMPTS` and `retry_num` starts at 0)
— 22 with the configured value 20 — and the loop then counts the record in
`failed`, not in `successful`. -/
theorem always_transient_exhausts_budget (p : KeyspacesRetryPolicy)
    (b : Behavior) (h : ∀ k, (b k).isTransient = true)
    (n i t suc fl : Nat) :
    execRecord p b = (false, p.RETRY_MAX_ATTEMPTS + 2) ∧
    (insertLoop p n i t suc fl [b]).1 = suc ∧
    (insertLoop p n i t suc fl [b]).2.1 = fl + 1 := by
  have hx : execRecord p b = (false, p.RETRY_MAX_ATTEMPTS + 2) :=
    execRecordAux_always_transient p b h (p.RETRY_MAX_ATTEMPTS + 2) 0
      LOCAL_QUORUM (by omega)
  refine ⟨hx, ?_, ?_⟩ <;> simp [insertLoop, hx]

/-- Witness for C1 (amended) at the configured policy and an
always-unavailable sink, run as the only record of a one-row load. -/
theorem always_transient_exhausts_budget_witness :
    execRecord defaultKeyspacesRetryPolicy
        (fun _ => AttemptResult.unavailable) = (false, 22) ∧
    (insertLoop defaultKeyspacesRetryPolicy 1 1 0 0 0
        [fun _ => AttemptResult.unavailable]).1 = 0 ∧
    (insertLoop defaultKeyspacesRetryPolicy 1 1 0 0 0
        [fun _ => AttemptResult.unavailable]).2.1 = 1 :=
  always_transient_exhausts_budget defaultKeyspacesRetryPolicy
    (fun _ => AttemptResult.unavailable) (fun _ => rfl) 1 1 0 0 0

/-- A sink behaviour that succeeds on the first attempt. -/
def behOk : Behavior := fun _ => AttemptResult.ok

/-- A sink behaviour that fails permanently on the first attempt. -/
def behPermanent : Behavior := fun _ => AttemptResult.permanent

/-- A sink behaviour that times out once and then succeeds. -/
def behRetryOnce : Behavior :=
  fun k => if k = 0 then AttemptResult.writeTimeout else AttemptResult.ok

/-- Derived characterization of a run's write attempts: record `i` is
attempted `(execRecord p b).2` times, all at the record's start time, and
the clock grows by one second from each record to the next. -/
def expectedAttempts (p : KeyspacesRetryPolicy) :
    Nat → Nat → List Behavior → List (Nat × Nat)
  | _, _, [] => []
  | i, t, b :: rest =>
    List.replicate (execRecord p b).2 (i, t) ++
      expectedAttempts p (i + 1) (t + 1) rest

/-- Derived characterization of the order of attempted record indices: one
contiguous block per record, blocks in source order. -/
def sourceOrderBlocks (p : KeyspacesRetryPolicy) : Nat → List Behavior → List Nat
  | _, [] => []
  | i, b :: rest =>
    List.replicate (execRecord p b).2 i ++ sourceOrderBlocks p (i + 1) rest

lemma attemptsOfTrace_append (l1 l2 : List Ev) :
    attemptsOfTrace (l1 ++ l2) = attemptsOfTrace l1 ++ attemptsOfTrace l2 := by
  simp [attemptsOfTrace]

lemma attemptsOfTrace_attemptRange (i t a : Nat) (b : Behavior) :
    attemptsOfTrace ((List.range a).map fun k => Ev.attempt i t (b k)) =
      List.replicate a (i, t) := by
  induction a with
  | zero => rfl
  | succ m ih =>
    rw [List.range_succ, List.map_append, attemptsOfTrace_append, ih,
      List.replicate_succ']
    rfl

lemma attemptsOfTrace_progressIf (c : Prop) [Decidable c] (a b : Nat)
    (x y z : ℚ) :
    attemptsOfTrace (if c then [Ev.progress a b x y z] else []) = [] := by
  split <;> rfl

lemma attemptsOfTrace_sleepIf (c : Prop) [Decidable c] :
    attemptsOfTrace (if c then [Ev.sleepEv] else []) = [] := by
  split <;> rfl

/-- Master trace lemma: with a consistent total count, the attempts in the
trace of the insert loop are exactly the per-record contiguous blocks of
`expectedAttempts`. -/
lemma attemptsOfTrace_insertLoop (p : KeyspacesRetryPolicy) :
    ∀ (l : List Behavior) (n i t suc fl : Nat), n + 1 = i + l.length →
      attemptsOfTrace (insertLoop p n i t suc fl l).2.2 =
        expectedAttempts p i t l := by
  intro l
  induction l with
  | nil => intro n i t suc fl _; rfl
  | cons b rest ih =>
    intro n i t suc fl h
    have hlen : n = i + rest.length := by
      simp only [List.length_cons] at h
      omega
    have key : ∀ suc2 fl2,
        attemptsOfTrace (insertLoop p n (i + 1)
            (if i < n then t + 1 else t) suc2 fl2 rest).2.2 =
          expectedAttempts p (i + 1) (t + 1) rest := by
      intro suc2 fl2
      cases rest with
      | nil => rfl
      | cons b2 rest2 =>
        have hi : i < n := by
          simp only [List.length_cons] at hlen
          omega
        rw [if_pos hi]
        refine ih n (i + 1) (t + 1) suc2 fl2 ?_
        simp only [List.length_cons] at hlen ⊢
        omega
    simp only [insertLoop]
    by_cases hr : (execRecord p b).1 = true
    · simp [hr, attemptsOfTrace_append, attemptsOfTrace_attemptRange,
        attemptsOfTrace_progressIf, attemptsOfTrace_sleepIf, key,
        expectedAttempts]
    · simp [hr, attemptsOfTrace_append, attemptsOfTrace_attemptRange,
        attemptsOfTrace_sleepIf, key, expectedAttempts]

/-- The two counters absorb exactly one increment per consumed record. -/
lemma insertLoop_counters (p : KeyspacesRetryPolicy) :
    ∀ (l : List Behavior) (n i t suc fl : Nat),
      (insertLoop p n i t suc fl l).1 + (insertLoop p n i t suc fl l).2.1 =
        suc + fl + l.length := by
  intro l
  induction l with
  | nil => intro n i t suc fl; simp [insertLoop]
  | cons b rest ih =>
    intro n i t suc fl
    simp only [insertLoop]
    by_cases hr : (execRecord p b).1 = true <;> simp [hr, ih] <;> omega

/-- One-step unfolding of the insert loop on a cons, with the local
bindings of the definition expanded. -/
lemma insertLoop_cons (p : KeyspacesRetryPolicy) (n i t suc fl : Nat)
    (b : Behavior) (rest : List Behavior) :
    insertLoop p n i t suc fl (b :: rest) =
      if (execRecord p b).1 = true then
        ((insertLoop p n (i + 1) (if i < n then t + 1 else t) (suc + 1) fl rest).1,
          (insertLoop p n (i + 1) (if i < n then t + 1 else t) (suc + 1) fl rest).2.1,
          ((List.range (execRecord p b).2).map fun k => Ev.attempt i t (b k)) ++
            (if i % 10 == 0 then
                [Ev.progress i n (percentOf i n) (progressRate i (t : ℚ))
                  (etaMinutes n i (progressRate i (t : ℚ)))]
              else []) ++
            (if i < n then [Ev.sleepEv] else []) ++
            (insertLoop p n (i + 1) (if i < n then t + 1 else t) (suc + 1) fl rest).2.2)
      else
        ((insertLoop p n (i + 1) (if i < n then t + 1 else t) suc (fl + 1) rest).1,
          (insertLoop p n (i + 1) (if i < n then t + 1 else t) suc (fl + 1) rest).2.1,
          ((List.range (execRecord p b).2).map fun k => Ev.attempt i t (b k)) ++
            (if i < n then [Ev.sleepEv] else []) ++
            (insertLoop p n (i + 1) (if i < n then t + 1 else t) suc (fl + 1) rest).2.2) :=
  rfl

lemma countSleeps_nil : countSleeps [] = 0 := rfl

lemma countSleeps_append (l1 l2 : List Ev) :
    countSleeps (l1 ++ l2) = countSleeps l1 + countSleeps l2 := by
  simp [countSleeps, List.countP_append]

lemma countSleeps_attemptRange (i t a : Nat) (b : Behavior) :
    countSleeps ((List.range a).map fun k => Ev.attempt i t (b k)) = 0 := by
  induction a with
  | zero => rfl
  | succ m ih =>
    rw [List.range_succ, List.map_append, countSleeps_append, ih]
    rfl

lemma countSleeps_progressIf (c : Prop) [Decidable c] (a b : Nat)
    (x y z : ℚ) :
    countSleeps (if c then [Ev.progress a b x y z] else []) = 0 := by
  split <;> rfl

lemma countSleeps_sleepIf (c : Prop) [Decidable c] :
    countSleeps (if c then [Ev.sleepEv] else []) = if c then 1 else 0 := by
  split <;> rfl

lemma countSleeps_cons_sleep (tr : List Ev) :
    countSleeps (Ev.sleepEv :: tr) = countSleeps tr + 1 := by
  simp [countSleeps, List.countP_cons]

/-- The loop sleeps exactly once per record except after the last one,
whatever each record's outcome is. -/
lemma countSleeps_insertLoop (p : KeyspacesRetryPolicy) :
    ∀ (l : List Behavior) (n i t suc fl : Nat), n + 1 = i + l.length →
      countSleeps (insertLoop p n i t suc fl l).2.2 = l.length - 1 := by
  intro l
  induction l with
  | nil => intro n i t suc fl _; rfl
  | cons b rest ih =>
    intro n i t suc fl h
    have hlen : n = i + rest.length := by
      simp only [List.length_cons] at h
      omega
    rw [insertLoop_cons]
    cases rest with
    | nil =>
      have hni : ¬ i < n := by
        simp only [List.length_nil] at hlen
        omega
      by_cases hr : (execRecord p b).1 = true <;>
        simp [hr, hni, countSleeps_append, countSleeps_attemptRange,
          countSleeps_progressIf, countSleeps_nil, insertLoop]
    | cons b2 rest2 =>
      have hi : i < n := by
        simp only [List.length_cons] at hlen
        omega
      have hkey : ∀ suc2 fl2,
          countSleeps (insertLoop p n (i + 1) (t + 1) suc2 fl2
              (b2 :: rest2)).2.2 = (b2 :: rest2).length - 1 := by
        intro suc2 fl2
        refine ih n (i + 1) (t + 1) suc2 fl2 ?_
        simp only [List.length_cons] at hlen ⊢
        omega
      by_cases hr : (execRecord p b).1 = true <;>
        simp [hr, hi, countSleeps_append, countSleeps_attemptRange,
          countSleeps_progressIf, countSleeps_sleepIf, countSleeps_cons_sleep,
          hkey]

/-- C9: a run over a non-empty source of n records performs exactly n - 1
one-second pacing sleeps: one after every record except the last, on the
success path and on the failure path alike, whatever each record's outcome
is (the behaviour list is arbitrary). -/
theorem pacing_sleeps (p : KeyspacesRetryPolicy) (l : List Behavior)
    (h : 1 ≤ l.length) :
    countSleeps (runLoader p l).2.2 = l.length - 1 :=
  countSleeps_insertLoop p l l.length 1 0 0 0 (by omega)

/-- Witness for C9 on a two-record run with one success and one permanent
failure: exactly one pacing sleep. -/
theorem pacing_sleeps_witness :
    countSleeps (runLoader defaultKeyspacesRetryPolicy
        [behOk, behPermanent]).2.2 = 1 :=
  pacing_sleeps defaultKeyspacesRetryPolicy [behOk, behPermanent] (by decide)

lemma execRecordAux_pos (p : KeyspacesRetryPolicy) (b : Behavior)
    (c k fuel : Nat) : 0 < (execRecordAux p b c (fuel + 1) k).2 := by
  simp only [execRecordAux]
  by_cases h1 : b k = AttemptResult.ok
  · simp [h1]
  · by_cases h2 : b k = AttemptResult.permanent
    · simp [h1, h2]
    · simp only [if_neg h1, if_neg h2]
      rcases hc : consult p c (b k) k with ⟨d, oc⟩
      cases d <;> simp

/-- Every record is attempted at least once. -/
lemma execRecord_attempts_pos (p : KeyspacesRetryPolicy) (b : Behavior) :
    0 < (execRecord p b).2 :=
  execRecordAux_pos p b LOCAL_QUORUM 0 (p.RETRY_MAX_ATTEMPTS + 1)

/-- The record indices appearing among the expected attempts are exactly the
indices of the consumed records. -/
lemma mem_expectedAttempts (p : KeyspacesRetryPolicy) :
    ∀ (l : List Behavior) (i t j : Nat),
      (∃ tm, (j, tm) ∈ expectedAttempts p i t l) ↔ i ≤ j ∧ j < i + l.length := by
  intro l
  induction l with
  | nil => intro i t j; simp [expectedAttempts]
  | cons b rest ih =>
    intro i t j
    simp only [expectedAttempts, List.mem_append, List.mem_replicate,
      Prod.mk.injEq, List.length_cons]
    constructor
    · rintro ⟨tm, ⟨-, hji, -⟩ | hmem⟩
      · omega
      · have hr := (ih (i + 1) (t + 1) j).mp ⟨tm, hmem⟩
        omega
    · rintro ⟨hij, hlt⟩
      by_cases hji : j = i
      · subst hji
        have ha := execRecord_attempts_pos p b
        exact ⟨t, Or.inl ⟨by omega, rfl, rfl⟩⟩
      · have hr : i + 1 ≤ j ∧ j < (i + 1) + rest.length := by omega
        rcases (ih (i + 1) (t + 1) j).mpr hr with ⟨tm, hm⟩
        exact ⟨tm, Or.inr hm⟩

/-- Every attempt on record r starts at virtual time t0 + (r - i0): all of a
record's attempts share the record's start time, one second after the
previous record's. -/
lemma time_mem_expectedAttempts (p : KeyspacesRetryPolicy) :
    ∀ (l : List Behavior) (i t r tm : Nat),
      (r, tm) ∈ expectedAttempts p i t l → tm + i = t + r := by
  intro l
  induction l with
  | nil => intro i t r tm h; simp [expectedAttempts] at h
  | cons b rest ih =>
    intro i t r tm h
    simp only [expectedAttempts, List.mem_append, List.mem_replicate,
      Prod.mk.injEq] at h
    rcases h with ⟨-, hr, htm⟩ | hmem
    · omega
    · have := ih (i + 1) (t + 1) r tm hmem
      omega

/-- C2 counterexample: a one-record run whose sink times out once and then
succeeds.  The script sleeps only between records, and the driver retries
immediately, so the two successive write attempts (the initial attempt and
its retry) both start at virtual time 0: their spacing is 0, below the
1-second minimum that the fixed 1 record/second rate (R = 1) requires. -/
theorem retry_attempts_same_start_time :
    attemptsOfTrace (runLoader defaultKeyspacesRetryPolicy
        [behRetryOnce]).2.2 = [(1, 0), (1, 0)] := by
  decide

/-- C2 (amended): the minimum 1-second spacing holds between attempts on
distinct records — any attempt on a later record starts at least one second
after any attempt on an earlier record — but not between the retry attempts
of a single record, which are issued immediately. -/
theorem spacing_between_distinct_records (p : KeyspacesRetryPolicy)
    (l : List Behavior) (e1 e2 : Nat × Nat)
    (h1 : e1 ∈ attemptsOfTrace (runLoader p l).2.2)
    (h2 : e2 ∈ attemptsOfTrace (runLoader p l).2.2)
    (hlt : e1.1 < e2.1) : e1.2 + 1 ≤ e2.2 := by
  obtain ⟨r1, t1⟩ := e1
  obtain ⟨r2, t2⟩ := e2
  unfold runLoader at h1 h2
  rw [attemptsOfTrace_insertLoop p l l.length 1 0 0 0 (by omega)] at h1 h2
  have k1 := time_mem_expectedAttempts p l 1 0 r1 t1 h1
  have k2 := time_mem_expectedAttempts p l 1 0 r2 t2 h2
  have hlt2 : r1 < r2 := hlt
  show t1 + 1 ≤ t2
  omega

/-- Witness for C2 (amended) on a two-record run: the single attempts of
records 1 and 2 start at times 0 and 1, one second apart. -/
theorem spacing_between_distinct_records_witness :
    ((1, 0) : Nat × Nat) ∈ attemptsOfTrace (runLoader
        defaultKeyspacesRetryPolicy [behOk, behOk]).2.2 ∧
    ((2, 1) : Nat × Nat) ∈ attemptsOfTrace (runLoader
        defaultKeyspacesRetryPolicy [behOk, behOk]).2.2 ∧
    0 + 1 ≤ 1 :=
  ⟨by decide, by decide,
    spacing_between_distinct_records defaultKeyspacesRetryPolicy
      [behOk, behOk] (1, 0) (2, 1) (by decide) (by decide) (by decide)⟩

lemma map_fst_expectedAttempts (p : KeyspacesRetryPolicy) :
    ∀ (l : List Behavior) (i t : Nat),
      (expectedAttempts p i t l).map Prod.fst = sourceOrderBlocks p i l := by
  intro l
  induction l with
  | nil => intro i t; rfl
  | cons b rest ih =>
    intro i t
    simp [expectedAttempts, sourceOrderBlocks, List.map_replicate, ih]

/-- C7: records are attempted in source order: the sequence of record
indices of the write attempts, in trace order, is one contiguous block per
record — blocks in source order, each record's attempts adjacent — so no
reordering and no out-of-order completion is observable. -/
theorem attempts_in_source_order (p : KeyspacesRetryPolicy)
    (l : List Behavior) :
    (attemptsOfTrace (runLoader p l).2.2).map Prod.fst =
      sourceOrderBlocks p 1 l := by
  unfold runLoader
  rw [attemptsOfTrace_insertLoop p l l.length 1 0 0 0 (by omega)]
  exact map_fst_expectedAttempts p l 1 0

/-- C3: for every completed run, `successful + failed` equals the number of
records consumed from the source — each consumed record increments exactly
one of the two counters exactly once — and the records attempted are
exactly the consumed ones: a record index has a write attempt in the trace
iff it lies in 1..n. -/
theorem counters_partition (p : KeyspacesRetryPolicy) (l : List Behavior) :
    (runLoader p l).1 + (runLoader p l).2.1 = l.length ∧
    (∀ j : Nat, (∃ tm, (j, tm) ∈ attemptsOfTrace (runLoader p l).2.2) ↔
      1 ≤ j ∧ j ≤ l.length) := by
  constructor
  · have hc := insertLoop_counters p l l.length 1 0 0 0
    simpa [runLoader] using hc
  · intro j
    unfold runLoader
    rw [attemptsOfTrace_insertLoop p l l.length 1 0 0 0 (by omega),
      mem_expectedAttempts]
    omega

/-- Witness for C3 on a one-record run: the counters sum to 1 and record 1
is attempted. -/
theorem counters_partition_witness :
    (runLoader defaultKeyspacesRetryPolicy [behOk]).1 +
      (runLoader defaultKeyspacesRetryPolicy [behOk]).2.1 = 1 ∧
    (∃ tm, ((1 : Nat), tm) ∈ attemptsOfTrace
      (runLoader defaultKeyspacesRetryPolicy [behOk]).2.2) :=
  ⟨(counters_partition defaultKeyspacesRetryPolicy [behOk]).1,
    ((counters_partition defaultKeyspacesRetryPolicy [behOk]).2 1).mpr
      (by decide)⟩

/-- C8 counterexample: a five-record run (all writes succeed).  The loop of
data_loader.py lines 259-294 has no cancellation input of any kind, so no
request can make it stop after 2 of 5 records: the run attempts records 3,
4 and 5 and its report covers all five records, contradicting the claimed
partial report of exactly 2 records with no attempt on records 3-5. -/
theorem no_cancellation_counterexample :
    (runLoader defaultKeyspacesRetryPolicy
        [behOk, behOk, behOk, behOk, behOk]).1 = 5 ∧
    (attemptsOfTrace (runLoader defaultKeyspacesRetryPolicy
        [behOk, behOk, behOk, behOk, behOk]).2.2).map Prod.fst =
      [1, 2, 3, 4, 5] := by
  decide

/-- C8 (amended): the run offers no cancellation: it unconditionally
processes the whole source — every record of the source receives at least
one write attempt, so the run never returns a partial report. -/
theorem run_attempts_every_record (p : KeyspacesRetryPolicy)
    (l : List Behavior) (j : Nat) (h1 : 1 ≤ j) (h2 : j ≤ l.length) :
    ∃ tm, (j, tm) ∈ attemptsOfTrace (runLoader p l).2.2 := by
  unfold runLoader
  rw [attemptsOfTrace_insertLoop p l l.length 1 0 0 0 (by omega)]
  exact (mem_expectedAttempts p l 1 0 j).mpr ⟨h1, by omega⟩

/-- Witness for C8 (amended): record 3 of a five-record run is attempted. -/
theorem run_attempts_every_record_witness :
    ∃ tm, ((3 : Nat), tm) ∈ attemptsOfTrace (runLoader
      defaultKeyspacesRetryPolicy [behOk, behOk, behOk, behOk, behOk]).2.2 :=
  run_attempts_every_record defaultKeyspacesRetryPolicy
    [behOk, behOk, behOk, behOk, behOk] 3 (by decide) (by decide)

/-- C4: a record whose write fails permanently is attempted exactly once
(the driver raises without consulting the retry policy), `failed` is
incremented, no retry occurs, and the loop goes on with the next records:
processing `b :: rest` is one failure-path step — the single attempt event,
the conditional pacing sleep — followed by the processing of `rest` with
`failed + 1`.  In particular no per-record failure aborts the run: the
result is always that of processing the whole remaining list. -/
theorem permanent_failure_one_attempt (p : KeyspacesRetryPolicy)
    (b : Behavior) (h : b 0 = AttemptResult.permanent)
    (n i t suc fl : Nat) (rest : List Behavior) :
    execRecord p b = (false, 1) ∧
    insertLoop p n i t suc fl (b :: rest) =
      ((insertLoop p n (i + 1) (if i < n then t + 1 else t) suc (fl + 1) rest).1,
        (insertLoop p n (i + 1) (if i < n then t + 1 else t) suc (fl + 1) rest).2.1,
        Ev.attempt i t AttemptResult.permanent ::
          ((if i < n then [Ev.sleepEv] else []) ++
            (insertLoop p n (i + 1) (if i < n then t + 1 else t) suc
              (fl + 1) rest).2.2)) := by
  have hx : execRecord p b = (false, 1) := by
    show execRecordAux p b LOCAL_QUORUM (p.RETRY_MAX_ATTEMPTS + 1 + 1) 0 =
      (false, 1)
    simp [execRecordAux, h]
  refine ⟨hx, ?_⟩
  rw [insertLoop_cons]
  have hr1 : List.range 1 = [0] := rfl
  simp [hx, h, hr1]

/-- Witness for C4: a one-record run on a permanently failing sink makes a
single attempt and ends with `successful = 0`, `failed = 1`. -/
theorem permanent_failure_one_attempt_witness :
    execRecord defaultKeyspacesRetryPolicy behPermanent = (false, 1) ∧
    insertLoop defaultKeyspacesRetryPolicy 1 1 0 0 0 [behPermanent] =
      (0, 1, [Ev.attempt 1 0 AttemptResult.permanent]) :=
  permanent_failure_one_attempt defaultKeyspacesRetryPolicy behPermanent rfl
    1 1 0 0 0 []

/-- C5 counterexample: a ten-record run whose first record fails permanently
and whose other nine records succeed.  The whole run contains only 9
successful attempts, so a rule of one progress event per 10 successful
attempts would emit none — yet the trace contains one progress event,
emitted when the record at index 10 succeeds (after only 9 successes): the
trigger is the record index, not the count of successful attempts. -/
theorem progress_not_per_ten_successes :
    countProgress (runLoader defaultKeyspacesRetryPolicy
        (behPermanent :: List.replicate 9 behOk)).2.2 = 1 ∧
    (runLoader defaultKeyspacesRetryPolicy
        (behPermanent :: List.replicate 9 behOk)).1 = 9 := by
  decide

/-- C5 (amended): on the success path a progress report is emitted exactly
when the record's 1-based source index `i` is a multiple of 10 — the
trigger counts processed records (successes and failures alike), not
successful attempts — and the report carries `i` as records processed, the
percentage `i / total * 100`, the observed rate `i / elapsed` measured from
run start (0 when elapsed is 0), and the estimated minutes remaining
`((total - i) / rate) / 60` (0 when the rate is 0). -/
theorem progress_on_success (p : KeyspacesRetryPolicy) (b : Behavior)
    (n i t suc fl : Nat) (rest : List Behavior)
    (hok : (execRecord p b).1 = true) :
    insertLoop p n i t suc fl (b :: rest) =
      ((insertLoop p n (i + 1) (if i < n then t + 1 else t) (suc + 1) fl rest).1,
        (insertLoop p n (i + 1) (if i < n then t + 1 else t) (suc + 1) fl rest).2.1,
        ((List.range (execRecord p b).2).map fun k => Ev.attempt i t (b k)) ++
          (if i % 10 == 0 then
              [Ev.progress i n (percentOf i n) (progressRate i (t : ℚ))
                (etaMinutes n i (progressRate i (t : ℚ)))]
            else []) ++
          (if i < n then [Ev.sleepEv] else []) ++
          (insertLoop p n (i + 1) (if i < n then t + 1 else t) (suc + 1)
            fl rest).2.2) := by
  rw [insertLoop_cons, if_pos hok]

/-- Witness for C5 (amended): the tenth record of a ten-record run succeeds
at virtual time 9 with eight prior successes and one prior failure; the
step emits exactly one progress report carrying index 10, 100 percent, the
rate 10/9 and the ETA 0. -/
theorem progress_on_success_witness :
    insertLoop defaultKeyspacesRetryPolicy 10 10 9 8 1 [behOk] =
      (9, 1, [Ev.attempt 10 9 AttemptResult.ok,
        Ev.progress 10 10 (percentOf 10 10)
          (progressRate 10 ((9 : Nat) : ℚ))
          (etaMinutes 10 10 (progressRate 10 ((9 : Nat) : ℚ)))]) := by
  have hst := progress_on_success defaultKeyspacesRetryPolicy behOk
    10 10 9 8 1 [] (by decide)
  simpa using hst
